import Mathlib

/-!
Verification of the FFX `.vpa` navmesh decoder and its consumer
(`src/mapoutvisualiser.py`).

The byte buffer is modelled as a `List Nat` (one entry per byte).  All
multi-byte reads are little-endian, mirroring the `struct` format strings
of the source (`'<4s 12x I I I 7I I'`, `'<10x H f 8x I I'`, `'<hhh2x'`,
`'<8x I I'`, `'<3H 3h I'`).  `struct.unpack_from(fmt, content, off)`
raises `struct.error` exactly when `off + calcsize(fmt) > len(content)`;
each record reader below therefore guards the whole record size and
otherwise reads with `List.getD` (which then only ever hits real bytes).

IEEE-754 binary32 values are decoded exactly into an inductive `F32`
(finite values as rationals, plus the infinities and NaN).  Every
multiplication the source performs on them (`raw_s16 * scale` in Python
double precision) is exact for finite operands, because a 16-bit integer
times a 24-bit significand fits in a double, so the rational model agrees
bit-for-bit with the Python arithmetic on finite scales.
-/

namespace FFXMapout

abbrev Buf := List Nat

/-- One byte of the buffer (in-bounds callers only; default 0 out of bounds). -/
def u8get (buf : Buf) (off : Nat) : Nat := buf.getD off 0

/-- Little-endian unsigned 16-bit read, as in format code `H`. -/
def u16get (buf : Buf) (off : Nat) : Nat :=
  u8get buf off + 2 ^ 8 * u8get buf (off + 1)

/-- Little-endian unsigned 32-bit read, as in format code `I`. -/
def u32get (buf : Buf) (off : Nat) : Nat :=
  u8get buf off + 2 ^ 8 * u8get buf (off + 1) + 2 ^ 16 * u8get buf (off + 2) +
    2 ^ 24 * u8get buf (off + 3)

/-- Little-endian signed 16-bit read (two's complement), format code `h`. -/
def s16get (buf : Buf) (off : Nat) : Int :=
  let u := u16get buf off
  if u < 2 ^ 15 then (u : Int) else (u : Int) - 2 ^ 16

/-- An IEEE-754 binary32 value, represented exactly. -/
inductive F32 where
  | finite (q : ℚ)
  | inf
  | neginf
  | nan
deriving DecidableEq

/-- Exact value of a binary32 bit pattern (sign bit 31, exponent bits 23-30,
significand bits 0-22; subnormals for exponent 0, infinities/NaN for 255). -/
def f32val (bits : Nat) : F32 :=
  let b : Nat := bits % 2 ^ 32
  let s : Nat := b / 2 ^ 31
  let e : Nat := b / 2 ^ 23 % 2 ^ 8
  let m : Nat := b % 2 ^ 23
  let sgn : ℚ := if s = 1 then -1 else 1
  if e = 0 then .finite (sgn * (m : ℚ) / 2 ^ 149)
  else if e = 255 then
    (if m = 0 then (if s = 1 then .neginf else .inf) else .nan)
  else .finite (sgn * ((2 ^ 23 + m : ℚ) * 2 ^ e / 2 ^ 150))

/-- Little-endian 32-bit float read, format code `f`. -/
def f32get (buf : Buf) (off : Nat) : F32 := f32val (u32get buf off)

/-- Python double multiplication `r * s` of an integer (from an `s16` field)
by a float, exact for finite operands of these magnitudes. -/
def mulScale (r : Int) (s : F32) : F32 :=
  match s with
  | .finite q => .finite ((r : ℚ) * q)
  | .inf => if 0 < r then .inf else if r < 0 then .neginf else .nan
  | .neginf => if 0 < r then .neginf else if r < 0 then .inf else .nan
  | .nan => .nan

/-- A decoded vertex: coordinates are `raw_s16 * scale` (source line 117). -/
structure Vertex where
  x : F32
  y : F32
  z : F32
deriving DecidableEq

/-- A navmesh triangle (source class `Tri`): three `u16` vertex indices,
three `s16` neighbour indices, the raw `u32` attribute word. -/
structure Tri where
  vertex_indices : Nat × Nat × Nat
  neighbour_indices : Int × Int × Int
  data : Nat
deriving DecidableEq

/-- `self.passable = data & 0b01111111` (source line 38). -/
def Tri.passable (t : Tri) : Nat := t.data &&& 127

/-- `self.battle = (data >> 7) & 0b11` (source line 39). -/
def Tri.battle (t : Tri) : Nat := (t.data >>> 7) &&& 3

/-- `self.location = (data >> 11) & 0b11` (source line 40). -/
def Tri.location (t : Tri) : Nat := (t.data >>> 11) &&& 3

/-- `self.soundType = (data >> 15) & 0b11` (source line 41). -/
def Tri.soundType (t : Tri) : Nat := (t.data >>> 15) &&& 3

/-- The plot colors of `PASSABILITY_COLORS` / `DEFAULT_COLOR`. -/
inductive Color where
  | green
  | red
  | orange
  | yellow
  | purple
  | gray
deriving DecidableEq

/-- `PASSABILITY_COLORS.get(pass_val, DEFAULT_COLOR)` (source lines 51-63):
the dict maps 0, 1, 2, 14 and the whole range 48..63; everything else
falls back to `DEFAULT_COLOR = 'gray'`. -/
def get_passability_color (p : Nat) : Color :=
  if p = 0 then .green
  else if p = 1 then .red
  else if p = 2 then .orange
  else if p = 14 then .yellow
  else if 48 ≤ p ∧ p ≤ 63 then .purple
  else .gray

/-- The legend of the plot (source lines 217-219) naming each color. -/
def legendLabel : Color → String
  | .green => "Passable"
  | .red => "Blocked"
  | .orange => "Block NPC"
  | .yellow => "Block Player"
  | .purple => "Scripted"
  | .gray => "Other"

/-- Decode failures: the two distinct failure prints of `parse_map_file`
(bad magic at line 84, `struct.error` at line 153). -/
inductive PErr where
  | badMagic (got : List Nat)
  | outOfBounds
deriving DecidableEq

/-- `b'MAP1'` as bytes. -/
def magicBytes : List Nat := [77, 65, 80, 49]

/-- `struct.calcsize('<4s 12x I I I 7I I')` = 4 + 12 + 11 * 4 = 60. -/
def header_size : Nat := 4 + 12 + 4 * 11

/-- The eleven `u32` fields of the header tuple after the magic, at byte
offsets 16, 20, ..., 56 (format `'<4s 12x I I I 7I I'`). -/
def headerInts (buf : Buf) : List Nat :=
  (List.range 11).map fun k => u32get buf (16 + 4 * k)

/-- Header stage of `parse_map_file` (source lines 78-90): unpack the whole
header (bounds fail first, as `struct.unpack_from` checks size before the
magic comparison can happen), then compare the magic, then take
`header_data[3]`, i.e. the THIRD decoded integer, as `navmesh_base_addr`. -/
def parseHeaderE (buf : Buf) : Except PErr Nat :=
  if header_size ≤ buf.length then
    if buf.take 4 = magicBytes then .ok ((headerInts buf).getD 2 0)
    else .error (.badMagic (buf.take 4))
  else .error .outOfBounds

/-- `struct.calcsize('<10x H f 8x I I')` = 10 + 2 + 4 + 8 + 4 + 4 = 32. -/
def navmesh_size : Nat := 10 + 2 + 4 + 8 + 4 + 4

/-- The navmesh descriptor record (source lines 94-100). -/
structure NavmeshRec where
  vertex_count : Nat
  scale : F32
  vertices_ptr : Nat
  tri_info_ptr : Nat
deriving DecidableEq

/-- NavMesh stage of `parse_map_file` (source lines 94-100): unpack
`'<10x H f 8x I I'` at `navmesh_base_addr`. -/
def parseNavmeshE (buf : Buf) (base : Nat) : Except PErr NavmeshRec :=
  if base + navmesh_size ≤ buf.length then
    .ok ⟨u16get buf (base + 10), f32get buf (base + 12),
         u32get buf (base + 24), u32get buf (base + 28)⟩
  else .error .outOfBounds

/-- `vertices_abs_addr = navmesh_base_addr + vertices_ptr` (source line 111). -/
def vertices_abs_addr (base verticesPtr : Nat) : Nat := base + verticesPtr

/-- `tri_info_abs_addr = navmesh_base_addr + tri_info_ptr` (source line 124). -/
def tri_info_abs_addr (base triInfoPtr : Nat) : Nat := base + triInfoPtr

/-- `tris_abs_addr = navmesh_base_addr + tris_ptr` (source line 129). -/
def tris_abs_addr (base trisPtr : Nat) : Nat := base + trisPtr

/-- `struct.calcsize('<hhh2x')` = 8. -/
def vertex_size : Nat := 8

/-- One vertex record (source lines 113-117): unpack `'<hhh2x'` at `off`
and scale each component. -/
def readVertexRec (buf : Buf) (scale : F32) (off : Nat) : Option Vertex :=
  if off + vertex_size ≤ buf.length then
    some ⟨mulScale (s16get buf off) scale,
          mulScale (s16get buf (off + 2)) scale,
          mulScale (s16get buf (off + 4)) scale⟩
  else none

/-- The vertex loop `for i in range(vertex_count)` (source lines 113-117),
reading records at `vaddr + i * 8` for the `n` indices starting at `i`;
any failing record aborts the whole decode, as the Python exception does. -/
def readVertices (buf : Buf) (scale : F32) (vaddr : Nat) : Nat → Nat → Option (List Vertex)
  | _, 0 => some []
  | i, n + 1 => do
    let v ← readVertexRec buf scale (vaddr + i * vertex_size)
    let rest ← readVertices buf scale vaddr (i + 1) n
    pure (v :: rest)

/-- `struct.calcsize('<8x I I')` = 16. -/
def tri_info_size : Nat := 8 + 4 + 4

/-- TriInfo stage (source lines 123-128): unpack `'<8x I I>'` at
`tri_info_abs_addr`, yielding `(tri_count, tris_ptr)`. -/
def parseTriInfoE (buf : Buf) (addr : Nat) : Except PErr (Nat × Nat) :=
  if addr + tri_info_size ≤ buf.length then
    .ok (u32get buf (addr + 8), u32get buf (addr + 12))
  else .error .outOfBounds

/-- `struct.calcsize('<3H 3h I')` = 16. -/
def tri_size : Nat := 16

/-- One triangle record (source lines 138-144): unpack `'<3H 3h I'` at `off`. -/
def readTriRec (buf : Buf) (off : Nat) : Option Tri :=
  if off + tri_size ≤ buf.length then
    some ⟨(u16get buf off, u16get buf (off + 2), u16get buf (off + 4)),
          (s16get buf (off + 6), s16get buf (off + 8), s16get buf (off + 10)),
          u32get buf (off + 12)⟩
  else none

/-- The triangle loop `for i in range(tri_count)` (source lines 138-144),
reading records at `taddr + i * 16`. -/
def readTris (buf : Buf) (taddr : Nat) : Nat → Nat → Option (List Tri)
  | _, 0 => some []
  | i, n + 1 => do
    let t ← readTriRec buf (taddr + i * tri_size)
    let rest ← readTris buf taddr (i + 1) n
    pure (t :: rest)

/-- A failed `struct.unpack_from` raises `struct.error`, reported by
`parse_map_file` through its `except struct.error` arm. -/
def liftOOB : Option α → Except PErr α
  | some a => .ok a
  | none => .error .outOfBounds

/-- The decode pipeline of `parse_map_file` (source lines 75-148) with its
failure modes made explicit: `badMagic` for the line-84 branch and
`outOfBounds` for any `struct.error`. -/
def parse_map_fileE (buf : Buf) : Except PErr (List Vertex × List Tri) := do
  let base ← parseHeaderE buf
  let nm ← parseNavmeshE buf base
  let vs ← liftOOB (readVertices buf nm.scale
    (vertices_abs_addr base nm.vertices_ptr) 0 nm.vertex_count)
  let ti ← parseTriInfoE buf (tri_info_abs_addr base nm.tri_info_ptr)
  let ts ← liftOOB (readTris buf (tris_abs_addr base ti.2) 0 ti.1)
  return (vs, ts)

/-- `parse_map_file` as the caller sees it: the input is `none` when the
file cannot be opened (`FileNotFoundError`), and every `except` arm
(source lines 150-159) collapses to the untyped return `(None, None)`. -/
def parse_map_file (inp : Option Buf) : Option (List Vertex) × Option (List Tri) :=
  match inp with
  | none => (none, none)
  | some buf =>
    match parse_map_fileE buf with
    | .ok (vs, ts) => (some vs, some ts)
    | .error _ => (none, none)

/-- The uncaught exception `visualize_navmesh` can raise: the `IndexError`
of `vertices[i]` at source line 180 (no handler exists on that path). -/
inductive ConsumeErr where
  | indexError
deriving DecidableEq

/-- Python list indexing `vertices[i]` for a nonnegative `i`: raises
`IndexError` when `i >= len(vertices)`. -/
def pyIndex (vs : List Vertex) (i : Nat) : Except ConsumeErr Vertex :=
  match vs.get? i with
  | some v => .ok v
  | none => .error .indexError

/-- One iteration of the loop in `visualize_navmesh` (source lines 178-192):
first the comprehension `[vertices[i] for i in tri.vertex_indices]` indexes
all three vertices (line 180), only then line 183 tests
`any(i >= len(vertices))` and skips (`none`); otherwise the polygon is kept. -/
def consumeTri (vs : List Vertex) (t : Tri) :
    Except ConsumeErr (Option (Vertex × Vertex × Vertex)) := do
  let p0 ← pyIndex vs t.vertex_indices.1
  let p1 ← pyIndex vs t.vertex_indices.2.1
  let p2 ← pyIndex vs t.vertex_indices.2.2
  if vs.length ≤ t.vertex_indices.1 ∨ vs.length ≤ t.vertex_indices.2.1 ∨
      vs.length ≤ t.vertex_indices.2.2 then
    return none
  else
    return some (p0, p1, p2)

/-- The full polygon-collection loop of `visualize_navmesh`: the renderable
set it hands to `Poly3DCollection`, or the uncaught exception. -/
def buildPolygons (vs : List Vertex) : List Tri → Except ConsumeErr (List (Vertex × Vertex × Vertex))
  | [] => .ok []
  | t :: ts => do
    let r ← consumeTri vs t
    let rest ← buildPolygons vs ts
    match r with
    | some p => return p :: rest
    | none => return rest

/-- `visualize_navmesh` (source lines 164-196): the guard
`if not vertices or not tris: return` (line 168) produces nothing for an
empty vertex or triangle list; otherwise the polygon collection is built. -/
def visualize_navmesh (vs : List Vertex) (ts : List Tri) :
    Option (Except ConsumeErr (List (Vertex × Vertex × Vertex))) :=
  if vs = [] ∨ ts = [] then none else some (buildPolygons vs ts)

/-- Python truthiness of the values `main` receives from `parse_map_file`:
`None` and the empty list are falsy, a non-empty list is truthy. -/
def truthy : Option (List α) → Bool
  | none => false
  | some [] => false
  | some (_ :: _) => true

/-- The branch `if vertices and tris:` of `main` (source line 252): `true`
means `visualize_navmesh` is called, `false` means the
`"Failed to parse map file"` message (line 255). -/
def main_visualizes (r : Option (List Vertex) × Option (List Tri)) : Bool :=
  truthy r.1 && truthy r.2

/-! ### Concrete buffers used as witnesses and counterexamples -/

/-- A 108-byte buffer: valid `MAP1` header, `navmesh_base_addr = 60`,
`vertex_count = 0`, `tri_info_ptr = 32`, `tri_count = 0`.  Decodes
successfully to the empty mesh. -/
def emptyMeshBuf : Buf :=
  ((((((List.replicate 108 0).set 0 77).set 1 65).set 2 80).set 3 49).set 24 60).set 88 32

/-- A 123-byte buffer: valid header, `navmesh_base_addr = 60`,
`vertex_count = 0`, `tri_info_ptr = 32`, `tri_count = 1`, `tris_ptr = 48`,
so the single triangle record would occupy bytes 108-123 — the buffer ends
exactly 1 byte before the end of that record. -/
def truncBuf : Buf :=
  ((((((((List.replicate 123 0).set 0 77).set 1 65).set 2 80).set 3 49).set 24 60).set 88 32).set 100 1).set 104 48

/-- A 132-byte buffer: valid header, `navmesh_base_addr = 60`,
`vertex_count = 1`, `scale` = the binary32 bit pattern of `0.01`
(bytes `0A D7 23 3C`), `vertices_ptr = 48`, `tri_info_ptr = 56`,
`tri_count = 0`; the single vertex record holds raw components
`(100, 0, 0)`. -/
def oneVertexBuf : Buf :=
  (((((((((((((List.replicate 132 0).set 0 77).set 1 65).set 2 80).set 3 49).set 24 60).set 70 1).set 72 10).set 73 215).set 74 35).set 75 60).set 84 48).set 88 56).set 108 100

/-! ### Helper lemmas -/

theorem land_127_eq_mod (d : Nat) : d &&& 127 = d % 128 := by
  have h := Nat.and_pow_two_sub_one_eq_mod d 7
  norm_num at h
  exact h

theorem land_3_eq_mod (d : Nat) : d &&& 3 = d % 4 := by
  have h := Nat.and_pow_two_sub_one_eq_mod d 2
  norm_num at h
  exact h

/-! ### Claims -/

/-- Claim C3: the absolute addresses of the vertex table, the TriInfo record
and the triangle table are each `navmeshBaseAddr + storedPointer`, so adding
a delta to the base while holding the stored pointers fixed shifts each
absolute address by exactly that delta. -/
theorem pointer_addresses_relative_to_base :
    ∀ base d verticesPtr triInfoPtr trisPtr : Nat,
      vertices_abs_addr base verticesPtr = base + verticesPtr ∧
      tri_info_abs_addr base triInfoPtr = base + triInfoPtr ∧
      tris_abs_addr base trisPtr = base + trisPtr ∧
      vertices_abs_addr (base + d) verticesPtr = vertices_abs_addr base verticesPtr + d ∧
      tri_info_abs_addr (base + d) triInfoPtr = tri_info_abs_addr base triInfoPtr + d ∧
      tris_abs_addr (base + d) trisPtr = tris_abs_addr base trisPtr + d := by
  intro base d vp tip tp
  refine ⟨rfl, rfl, rfl, ?_, ?_, ?_⟩ <;>
    simp only [vertices_abs_addr, tri_info_abs_addr, tris_abs_addr] <;> omega

/-- Claim C5: the attribute-word decode extracts `passable` from bits 0-6,
`battle` from bits 7-8, `location` from bits 11-12 and `soundType` from
bits 15-16 as pure mask/shift operations on non-overlapping ranges (any
word assembled from field values in those ranges is decoded back to exactly
those values, whatever the unused bits hold); `0x8001` decodes to
`passable=1, battle=0, location=0, soundType=1` and a word with only bits
7-8 set decodes to `passable=0, battle=3`. -/
theorem bitfield_extraction_spec :
    (∀ t : Tri,
      t.passable = t.data % 2 ^ 7 ∧
      t.battle = t.data / 2 ^ 7 % 2 ^ 2 ∧
      t.location = t.data / 2 ^ 11 % 2 ^ 2 ∧
      t.soundType = t.data / 2 ^ 15 % 2 ^ 2) ∧
    (∀ t : Tri, ∀ p b g1 l g2 s r : Nat,
      p < 2 ^ 7 → b < 2 ^ 2 → g1 < 2 ^ 2 → l < 2 ^ 2 → g2 < 2 ^ 2 → s < 2 ^ 2 →
      t.data = p + 2 ^ 7 * b + 2 ^ 9 * g1 + 2 ^ 11 * l + 2 ^ 13 * g2 + 2 ^ 15 * s + 2 ^ 17 * r →
      t.passable = p ∧ t.battle = b ∧ t.location = l ∧ t.soundType = s) ∧
    ((Tri.mk (0, 0, 0) (0, 0, 0) 0x8001).passable = 1 ∧
     (Tri.mk (0, 0, 0) (0, 0, 0) 0x8001).battle = 0 ∧
     (Tri.mk (0, 0, 0) (0, 0, 0) 0x8001).location = 0 ∧
     (Tri.mk (0, 0, 0) (0, 0, 0) 0x8001).soundType = 1) ∧
    ((Tri.mk (0, 0, 0) (0, 0, 0) 0x180).passable = 0 ∧
     (Tri.mk (0, 0, 0) (0, 0, 0) 0x180).battle = 3) := by
  have hfields : ∀ t : Tri,
      t.passable = t.data % 2 ^ 7 ∧
      t.battle = t.data / 2 ^ 7 % 2 ^ 2 ∧
      t.location = t.data / 2 ^ 11 % 2 ^ 2 ∧
      t.soundType = t.data / 2 ^ 15 % 2 ^ 2 := by
    intro t
    refine ⟨?_, ?_, ?_, ?_⟩ <;>
      simp only [Tri.passable, Tri.battle, Tri.location, Tri.soundType,
        Nat.shiftRight_eq_div_pow, land_127_eq_mod, land_3_eq_mod] <;> norm_num
  refine ⟨hfields, ?_, by decide, by decide⟩
  intro t p b g1 l g2 s r hp hb hg1 hl hg2 hs hdata
  obtain ⟨e1, e2, e3, e4⟩ := hfields t
  rw [e1, e2, e3, e4, hdata]
  norm_num at hp hb hg1 hl hg2 hs ⊢
  omega

/-- Witness for C5: a concrete assembled word is decoded back to its fields. -/
theorem bitfield_extraction_instance :
    (Tri.mk (0, 0, 0) (0, 0, 0)
        (5 + 2 ^ 7 * 2 + 2 ^ 9 * 3 + 2 ^ 11 * 1 + 2 ^ 13 * 0 + 2 ^ 15 * 3 + 2 ^ 17 * 9)).passable = 5 ∧
    (Tri.mk (0, 0, 0) (0, 0, 0)
        (5 + 2 ^ 7 * 2 + 2 ^ 9 * 3 + 2 ^ 11 * 1 + 2 ^ 13 * 0 + 2 ^ 15 * 3 + 2 ^ 17 * 9)).battle = 2 ∧
    (Tri.mk (0, 0, 0) (0, 0, 0)
        (5 + 2 ^ 7 * 2 + 2 ^ 9 * 3 + 2 ^ 11 * 1 + 2 ^ 13 * 0 + 2 ^ 15 * 3 + 2 ^ 17 * 9)).location = 1 ∧
    (Tri.mk (0, 0, 0) (0, 0, 0)
        (5 + 2 ^ 7 * 2 + 2 ^ 9 * 3 + 2 ^ 11 * 1 + 2 ^ 13 * 0 + 2 ^ 15 * 3 + 2 ^ 17 * 9)).soundType = 3 :=
  bitfield_extraction_spec.2.1 _ 5 2 3 1 0 3 9 (by norm_num) (by norm_num)
    (by norm_num) (by norm_num) (by norm_num) (by norm_num) rfl

/-- Claim C6: the passability classifier maps 0, 1, 2, 14 to the Passable,
Blocked, BlockedNPC and BlockedPlayer categories (green/red/orange/yellow in
the plot legend), every value in 48..63 to Scripted (purple), and every
other 7-bit value, e.g. 15, to Unclassified (the gray `Other` default). -/
theorem passability_color_table :
    get_passability_color 0 = Color.green ∧
    get_passability_color 1 = Color.red ∧
    get_passability_color 2 = Color.orange ∧
    get_passability_color 14 = Color.yellow ∧
    (∀ p : Nat, p < 64 → 48 ≤ p → get_passability_color p = Color.purple) ∧
    get_passability_color 15 = Color.gray ∧
    (∀ p : Nat, p < 128 → p ≠ 0 → p ≠ 1 → p ≠ 2 → p ≠ 14 → ¬(48 ≤ p ∧ p ≤ 63) →
      get_passability_color p = Color.gray) ∧
    legendLabel Color.green = "Passable" ∧
    legendLabel Color.red = "Blocked" ∧
    legendLabel Color.orange = "Block NPC" ∧
    legendLabel Color.yellow = "Block Player" ∧
    legendLabel Color.purple = "Scripted" ∧
    legendLabel Color.gray = "Other" := by
  refine ⟨rfl, rfl, rfl, rfl, by decide, rfl, ?_, rfl, rfl, rfl, rfl, rfl, rfl⟩
  intro p _ h0 h1 h2 h14 hrange
  unfold get_passability_color
  rw [if_neg h0, if_neg h1, if_neg h2, if_neg h14, if_neg hrange]

/-- Witness for C6: the classifier evaluated inside and outside the
Scripted range. -/
theorem passability_color_instance :
    get_passability_color 50 = Color.purple ∧ get_passability_color 99 = Color.gray :=
  ⟨passability_color_table.2.2.2.2.1 50 (by norm_num) (by norm_num),
   passability_color_table.2.2.2.2.2.2.1 99 (by norm_num) (by norm_num)
     (by norm_num) (by norm_num) (by norm_num) (by norm_num)⟩

/-- Counterexample for C2: a 4-byte buffer whose bytes are not `MAP1`
fails with `outOfBounds`, not `badMagic`, because `struct.unpack_from`
checks the 60-byte header size before the magic comparison is reached. -/
theorem short_bad_magic_is_out_of_bounds :
    parse_map_fileE [0, 0, 0, 0] = .error .outOfBounds ∧
    [0, 0, 0, 0].take 4 ≠ magicBytes :=
  ⟨rfl, by decide⟩

/-- Claim C2 (amended): for every buffer at least as long as the fixed
60-byte header region whose first 4 bytes are not `MAP1`, decoding fails
with `badMagic` carrying the offending bytes, regardless of the rest of
the buffer; shorter buffers fail with `outOfBounds` before the magic is
compared. -/
theorem bad_magic_of_full_header (buf : Buf) (hlen : header_size ≤ buf.length)
    (hmagic : buf.take 4 ≠ magicBytes) :
    parse_map_fileE buf = .error (.badMagic (buf.take 4)) := by
  have hh : parseHeaderE buf = .error (.badMagic (buf.take 4)) := by
    unfold parseHeaderE
    rw [if_pos hlen, if_neg hmagic]
  unfold parse_map_fileE
  rw [hh]
  rfl

/-- Witness for C2: the all-zero 60-byte buffer fails with `badMagic`. -/
theorem bad_magic_of_full_header_instance :
    parse_map_fileE (List.replicate 60 0) =
      .error (.badMagic ((List.replicate 60 0).take 4)) :=
  bad_magic_of_full_header (List.replicate 60 0) (by decide) (by decide)

/-- Claim C4: the header is unpacked at absolute offset 0 with layout
`magic(4) pad(12) u32 u32 u32 [7 u32 ignored] u32` (60 bytes, eleven
32-bit fields at offsets 16, 20, ..., 56), and `navmesh_base_addr` is the
THIRD decoded 32-bit field (list position 2, byte offset 24 =
4 + 12 + 4 + 4), not the first; on `emptyMeshBuf` the third field is 60
while the first is 0, and the decoder uses 60. -/
theorem header_layout_and_third_field :
    header_size = 60 ∧
    (∀ buf : Buf, (headerInts buf).length = 11) ∧
    (∀ buf : Buf, (headerInts buf).getD 2 0 = u32get buf (4 + 12 + 4 + 4)) ∧
    (∀ buf : Buf, ∀ k : Nat, k < 11 → (headerInts buf).getD k 0 = u32get buf (16 + 4 * k)) ∧
    (∀ buf : Buf, header_size ≤ buf.length → buf.take 4 = magicBytes →
      parseHeaderE buf = .ok ((headerInts buf).getD 2 0)) ∧
    (∀ buf : Buf, buf.length < header_size → parseHeaderE buf = .error .outOfBounds) ∧
    parseHeaderE emptyMeshBuf = .ok 60 ∧
    (headerInts emptyMeshBuf).getD 0 0 = 0 := by
  refine ⟨rfl, fun buf => by simp [headerInts], fun buf => rfl, ?_, ?_, ?_, rfl, rfl⟩
  · intro buf k hk
    interval_cases k <;> rfl
  · intro buf hlen hmagic
    unfold parseHeaderE
    rw [if_pos hlen, if_pos hmagic]
  · intro buf hshort
    unfold parseHeaderE
    rw [if_neg (by omega)]

/-- Witness for C4: the header-stage hypotheses discharged on concrete
buffers. -/
theorem header_layout_instance :
    parseHeaderE emptyMeshBuf = .ok ((headerInts emptyMeshBuf).getD 2 0) ∧
    (headerInts emptyMeshBuf).getD 7 0 = u32get emptyMeshBuf (16 + 4 * 7) ∧
    parseHeaderE [1, 2, 3] = .error .outOfBounds :=
  ⟨header_layout_and_third_field.2.2.2.2.1 emptyMeshBuf (by decide) (by decide),
   header_layout_and_third_field.2.2.2.1 emptyMeshBuf 7 (by norm_num),
   header_layout_and_third_field.2.2.2.2.2.1 [1, 2, 3] (by decide)⟩

/-- Claim C9: `parse_map_file` never propagates a failure to its caller:
its result is always either `(some vs, some ts)` or the untyped
`(none, none)`, and a `badMagic` input and an `outOfBounds` input produce
the identical value `(none, none)`, so the caller cannot tell them apart
even though the typed decode distinguishes them. -/
theorem parse_never_throws_untyped_result :
    (∀ inp : Option Buf, parse_map_file inp = (none, none) ∨
      ∃ vs ts, parse_map_file inp = (some vs, some ts)) ∧
    parse_map_fileE (List.replicate 60 0) = .error (.badMagic [0, 0, 0, 0]) ∧
    parse_map_fileE [0, 0, 0, 0] = .error .outOfBounds ∧
    parse_map_file (some (List.replicate 60 0)) = (none, none) ∧
    parse_map_file (some [0, 0, 0, 0]) = (none, none) ∧
    parse_map_file none = (none, none) := by
  refine ⟨?_, rfl, rfl, rfl, rfl, rfl⟩
  intro inp
  match inp with
  | none => exact Or.inl rfl
  | some buf =>
    match h : parse_map_fileE buf with
    | .ok (vs, ts) => exact Or.inr ⟨vs, ts, by simp [parse_map_file, h]⟩
    | .error e => exact Or.inl (by simp [parse_map_file, h])

/-- Claim C10: a successfully decoded mesh with an empty vertex or
triangle list takes the same path in `main` as a decode failure: the
truthiness test `if vertices and tris:` is false, `visualize_navmesh`
would produce nothing either, and the result of `main`'s branch equals
the one for `(None, None)`. -/
theorem empty_mesh_treated_as_failure :
    (∀ buf : Buf, ∀ vs : List Vertex, ∀ ts : List Tri,
      parse_map_fileE buf = .ok (vs, ts) → vs = [] ∨ ts = [] →
      main_visualizes (parse_map_file (some buf)) = false ∧
      main_visualizes (parse_map_file (some buf)) = main_visualizes (none, none) ∧
      visualize_navmesh vs ts = none) ∧
    main_visualizes (none, none) = false := by
  refine ⟨?_, rfl⟩
  intro buf vs ts hok hempty
  have hp : parse_map_file (some buf) = (some vs, some ts) := by
    simp [parse_map_file, hok]
  have hfalse : main_visualizes (some vs, some ts) = false := by
    rcases hempty with h | h <;> subst h <;> simp [main_visualizes, truthy]
  refine ⟨by rw [hp]; exact hfalse, by rw [hp, hfalse]; rfl, ?_⟩
  unfold visualize_navmesh
  rw [if_pos hempty]

/-- Witness for C10: `emptyMeshBuf` decodes successfully to the empty
mesh, yet `main` takes the failure branch. -/
theorem empty_mesh_instance :
    main_visualizes (parse_map_file (some emptyMeshBuf)) = false :=
  (empty_mesh_treated_as_failure.1 emptyMeshBuf [] [] rfl (Or.inl rfl)).1

/-- The triangle loop fails as soon as its last record would end past the
buffer: reading `n ≥ 1` records for indices `i, ..., i + n - 1` returns
`none` whenever the buffer is shorter than the end of the last record. -/
theorem readTris_none_of_short (buf : Buf) (taddr : Nat) :
    ∀ n i, 1 ≤ n → buf.length < taddr + (i + n) * tri_size →
      readTris buf taddr i n = none := by
  intro n
  induction n with
  | zero => intro i h1 _; exact absurd h1 (by omega)
  | succ m ih =>
    intro i _ hlen
    have hstep : readTris buf taddr i (m + 1) =
        (readTriRec buf (taddr + i * tri_size)).bind
          (fun t => (readTris buf taddr (i + 1) m).bind
            fun rest => some (t :: rest)) := rfl
    by_cases hm : m = 0
    · subst hm
      have hrec : readTriRec buf (taddr + i * tri_size) = none := by
        unfold readTriRec
        rw [if_neg (by simp only [tri_size] at hlen ⊢; omega)]
      rw [hstep, hrec]
      rfl
    · cases hrec : readTriRec buf (taddr + i * tri_size) with
      | none => rw [hstep, hrec]; rfl
      | some t =>
        have hrest : readTris buf taddr (i + 1) m = none := by
          refine ih (i + 1) (by omega) ?_
          have : i + 1 + m = i + (m + 1) := by omega
          rw [this]
          exact hlen
        rw [hstep, hrec, hrest]
        rfl

/-- Claim C7: whenever a read step exceeds the buffer — a buffer shorter
than the header, a buffer too short for the navmesh descriptor, or a
buffer ending exactly 1 byte before the end of the last required triangle
record — the decode fails with `outOfBounds` and no mesh (not even a
partial one holding the already-decoded vertices) is returned. -/
theorem truncated_triangle_record_out_of_bounds :
    (∀ buf : Buf, buf.length < header_size →
      parse_map_fileE buf = .error PErr.outOfBounds) ∧
    (∀ buf : Buf, ∀ base : Nat, parseHeaderE buf = .ok base →
      buf.length < base + navmesh_size →
      parse_map_fileE buf = .error PErr.outOfBounds) ∧
    (∀ buf : Buf, ∀ base : Nat, ∀ nm : NavmeshRec, ∀ vs : List Vertex, ∀ tc tp : Nat,
      parseHeaderE buf = .ok base →
      parseNavmeshE buf base = .ok nm →
      readVertices buf nm.scale (vertices_abs_addr base nm.vertices_ptr) 0
        nm.vertex_count = some vs →
      parseTriInfoE buf (tri_info_abs_addr base nm.tri_info_ptr) = .ok (tc, tp) →
      1 ≤ tc →
      buf.length + 1 = tris_abs_addr base tp + tc * tri_size →
      parse_map_fileE buf = .error PErr.outOfBounds ∧
      ∀ m, parse_map_fileE buf ≠ .ok m) := by
  refine ⟨?_, ?_, ?_⟩
  · intro buf hshort
    have hh : parseHeaderE buf = .error .outOfBounds := by
      unfold parseHeaderE
      rw [if_neg (by omega)]
    unfold parse_map_fileE
    rw [hh]
    rfl
  · intro buf base hh hshort
    have hn : parseNavmeshE buf base = .error .outOfBounds := by
      unfold parseNavmeshE
      rw [if_neg (by omega)]
    unfold parse_map_fileE
    rw [hh]
    show (parseNavmeshE buf base).bind _ = _
    rw [hn]
    rfl
  · intro buf base nm vs tc tp hh hn hv ht htc hshort
    have hnone : readTris buf (tris_abs_addr base tp) 0 tc = none :=
      readTris_none_of_short buf _ tc 0 htc (by rw [Nat.zero_add]; omega)
    have hmain : parse_map_fileE buf = .error PErr.outOfBounds := by
      unfold parse_map_fileE
      rw [hh]
      show (parseNavmeshE buf base).bind _ = _
      rw [hn]
      show (liftOOB (readVertices buf nm.scale
        (vertices_abs_addr base nm.vertices_ptr) 0 nm.vertex_count)).bind _ = _
      rw [hv]
      show (parseTriInfoE buf (tri_info_abs_addr base nm.tri_info_ptr)).bind _ = _
      rw [ht]
      show (liftOOB (readTris buf (tris_abs_addr base tp) 0 tc)).bind _ = _
      rw [hnone]
      rfl
    exact ⟨hmain, fun m hcontra => by rw [hmain] at hcontra; exact Except.noConfusion hcontra⟩

/-- The all-zero bit pattern decodes to the float 0.0. -/
theorem f32val_zero : f32val 0 = F32.finite 0 := by
  unfold f32val
  norm_num

set_option maxRecDepth 8000 in
/-- Witness for C7: `truncBuf` ends exactly 1 byte before the end of its
single 16-byte triangle record and fails with `outOfBounds`. -/
theorem truncated_triangle_record_instance :
    parse_map_fileE truncBuf = .error PErr.outOfBounds ∧
    truncBuf.length + 1 = tris_abs_addr 60 48 + 1 * tri_size := by
  have hscale : f32get truncBuf 72 = F32.finite 0 := by
    unfold f32get
    rw [show u32get truncBuf 72 = 0 by rfl, f32val_zero]
  have hn : parseNavmeshE truncBuf 60 = .ok ⟨0, F32.finite 0, 0, 32⟩ := by
    rw [show parseNavmeshE truncBuf 60 = .ok ⟨0, f32get truncBuf 72, 0, 32⟩ from rfl, hscale]
  exact ⟨(truncated_triangle_record_out_of_bounds.2.2 truncBuf 60 ⟨0, .finite 0, 0, 32⟩ [] 1 48
      rfl hn rfl rfl (by norm_num) rfl).1, rfl⟩

/-- Successful runs of the vertex loop read exactly one 8-byte record per
index, at `vaddr + (i + j) * 8`, entirely inside the buffer, and scale the
three raw signed 16-bit components. -/
theorem readVertices_spec (buf : Buf) (scale : F32) (vaddr : Nat) :
    ∀ n i vs, readVertices buf scale vaddr i n = some vs →
      vs.length = n ∧
      ∀ j, j < n →
        vs.get? j = some
          ⟨mulScale (s16get buf (vaddr + (i + j) * vertex_size)) scale,
           mulScale (s16get buf (vaddr + (i + j) * vertex_size + 2)) scale,
           mulScale (s16get buf (vaddr + (i + j) * vertex_size + 4)) scale⟩ ∧
        vaddr + (i + j) * vertex_size + vertex_size ≤ buf.length := by
  intro n
  induction n with
  | zero =>
    intro i vs h
    have hvs : vs = [] := by
      have : (some [] : Option (List Vertex)) = some vs := h
      exact (Option.some.inj this).symm
    subst hvs
    exact ⟨rfl, fun j hj => absurd hj (by omega)⟩
  | succ m ih =>
    intro i vs h
    have hstep : readVertices buf scale vaddr i (m + 1) =
        (readVertexRec buf scale (vaddr + i * vertex_size)).bind
          (fun v => (readVertices buf scale vaddr (i + 1) m).bind
            fun rest => some (v :: rest)) := rfl
    rw [hstep] at h
    cases hrec : readVertexRec buf scale (vaddr + i * vertex_size) with
    | none => rw [hrec] at h; exact absurd h (by simp)
    | some v =>
      rw [hrec] at h
      cases hrest : readVertices buf scale vaddr (i + 1) m with
      | none => rw [hrest] at h; exact absurd h (by simp)
      | some rest =>
        rw [hrest] at h
        simp only [Option.some_bind] at h
        have hvs : vs = v :: rest := (Option.some.inj h).symm
        subst hvs
        obtain ⟨hlen, hget⟩ := ih (i + 1) rest hrest
        refine ⟨by simp [hlen], ?_⟩
        intro j hj
        cases j with
        | zero =>
          unfold readVertexRec at hrec
          by_cases hb : vaddr + i * vertex_size + vertex_size ≤ buf.length
          · rw [if_pos hb] at hrec
            have hv : v = ⟨mulScale (s16get buf (vaddr + i * vertex_size)) scale,
                mulScale (s16get buf (vaddr + i * vertex_size + 2)) scale,
                mulScale (s16get buf (vaddr + i * vertex_size + 4)) scale⟩ :=
              (Option.some.inj hrec).symm
            constructor
            · rw [show i + 0 = i from by omega]
              simpa using congrArg some hv
            · rw [show i + 0 = i from by omega]
              exact hb
          · rw [if_neg hb] at hrec
            exact absurd hrec (by simp)
        | succ k =>
          have hk : k < m := by omega
          obtain ⟨hg, hbnd⟩ := hget k hk
          have harith : i + 1 + k = i + (k + 1) := by omega
          rw [harith] at hg hbnd
          exact ⟨by simpa using hg, hbnd⟩

/-- After a successful header and navmesh stage, the decoder is exactly the
vertex-table, TriInfo and triangle-table stages in sequence. -/
theorem parse_decomp (buf : Buf) (base : Nat) (nm : NavmeshRec)
    (hh : parseHeaderE buf = .ok base) (hn : parseNavmeshE buf base = .ok nm) :
    parse_map_fileE buf =
      (liftOOB (readVertices buf nm.scale
          (vertices_abs_addr base nm.vertices_ptr) 0 nm.vertex_count)).bind
        (fun vs => (parseTriInfoE buf (tri_info_abs_addr base nm.tri_info_ptr)).bind
          (fun ti => (liftOOB (readTris buf (tris_abs_addr base ti.2) 0 ti.1)).bind
            (fun ts => .ok (vs, ts)))) := by
  unfold parse_map_fileE
  rw [hh]
  show (parseNavmeshE buf base).bind _ = _
  rw [hn]
  rfl

theorem exc_ok_bind {ε : Type} (a : α) (f : α → Except ε β) :
    (Except.ok a : Except ε α).bind f = f a := rfl

theorem exc_error_bind {ε : Type} (e : ε) (f : α → Except ε β) :
    (Except.error e : Except ε α).bind f = .error e := rfl

/-- Claim C8: every successful decode reads exactly `vertex_count` 8-byte
vertex records at `vertexAddr + i * 8`, each coordinate being the raw
signed 16-bit component multiplied by the 32-bit float scale; a raw
component of 100 with the binary32 scale `0.01` (bit pattern `0x3C23D70A`)
decodes to a coordinate within `1/1000` of `1`, and scale `0` collapses
every coordinate to `0`. -/
theorem vertex_records_scaled :
    (∀ buf : Buf, ∀ base : Nat, ∀ nm : NavmeshRec, ∀ vs : List Vertex, ∀ ts : List Tri,
      parseHeaderE buf = .ok base →
      parseNavmeshE buf base = .ok nm →
      parse_map_fileE buf = .ok (vs, ts) →
      vs.length = nm.vertex_count ∧
      ∀ j, j < nm.vertex_count →
        vs.get? j = some
          ⟨mulScale (s16get buf (vertices_abs_addr base nm.vertices_ptr + j * vertex_size)) nm.scale,
           mulScale (s16get buf (vertices_abs_addr base nm.vertices_ptr + j * vertex_size + 2)) nm.scale,
           mulScale (s16get buf (vertices_abs_addr base nm.vertices_ptr + j * vertex_size + 4)) nm.scale⟩ ∧
        vertices_abs_addr base nm.vertices_ptr + j * vertex_size + vertex_size ≤ buf.length) ∧
    (mulScale 100 (f32val 0x3C23D70A) = .finite (134217725 / 134217728) ∧
      1 - 1 / 1000 < (134217725 / 134217728 : ℚ) ∧
      (134217725 / 134217728 : ℚ) < 1 + 1 / 1000) ∧
    (∀ r : Int, mulScale r (f32val 0) = .finite 0) ∧
    vertex_size = 8 := by
  refine ⟨?_, ⟨?_, by norm_num, by norm_num⟩, ?_, rfl⟩
  · intro buf base nm vs ts hh hn hp
    rw [parse_decomp buf base nm hh hn] at hp
    cases hv : readVertices buf nm.scale
        (vertices_abs_addr base nm.vertices_ptr) 0 nm.vertex_count with
    | none =>
      rw [hv] at hp
      exact absurd hp (by simp [liftOOB, exc_error_bind])
    | some vs0 =>
      rw [hv] at hp
      simp only [liftOOB, exc_ok_bind] at hp
      cases ht : parseTriInfoE buf (tri_info_abs_addr base nm.tri_info_ptr) with
      | error e =>
        rw [ht] at hp
        exact absurd hp (by simp [exc_error_bind])
      | ok ti =>
        rw [ht] at hp
        simp only [exc_ok_bind] at hp
        cases hts : readTris buf (tris_abs_addr base ti.2) 0 ti.1 with
        | none =>
          rw [hts] at hp
          exact absurd hp (by simp [liftOOB, exc_error_bind])
        | some ts0 =>
          rw [hts] at hp
          simp only [liftOOB, exc_ok_bind] at hp
          obtain ⟨hvs, _⟩ := Prod.mk.inj (Except.ok.inj hp)
          subst hvs
          obtain ⟨hlen, hget⟩ := readVertices_spec buf nm.scale
            (vertices_abs_addr base nm.vertices_ptr) nm.vertex_count 0 vs0 hv
          refine ⟨hlen, ?_⟩
          intro j hj
          obtain ⟨hg, hb⟩ := hget j hj
          rw [show (0 : Nat) + j = j from by omega] at hg hb
          exact ⟨hg, hb⟩
  · norm_num [mulScale, f32val]
  · intro r
    rw [f32val_zero]
    simp [mulScale]

set_option maxRecDepth 8000 in
/-- Witness for C8: `oneVertexBuf` declares one vertex with raw components
`(100, 0, 0)` and scale bits `0x3C23D70A` (`0.01`); the decode succeeds and
yields exactly one vertex. -/
theorem vertex_records_instance :
    ∃ vs ts, parse_map_fileE oneVertexBuf = Except.ok (vs, ts) ∧ vs.length = 1 ∧
      vs.get? 0 = some ⟨F32.finite (134217725 / 134217728), F32.finite 0, F32.finite 0⟩ := by
  have hh : parseHeaderE oneVertexBuf = .ok 60 := rfl
  have hscale : f32get oneVertexBuf 72 = F32.finite (5368709 / 536870912) := by
    unfold f32get
    rw [show u32get oneVertexBuf 72 = 0x3C23D70A from rfl]
    norm_num [f32val]
  have hn : parseNavmeshE oneVertexBuf 60 =
      .ok ⟨1, F32.finite (5368709 / 536870912), 48, 56⟩ := by
    rw [show parseNavmeshE oneVertexBuf 60 =
      .ok ⟨1, f32get oneVertexBuf 72, 48, 56⟩ from rfl, hscale]
  have hv : readVertices oneVertexBuf (F32.finite (5368709 / 536870912))
      (vertices_abs_addr 60 48) 0 1 =
      some [⟨F32.finite (134217725 / 134217728), F32.finite 0, F32.finite 0⟩] := by
    rw [show readVertices oneVertexBuf (F32.finite (5368709 / 536870912))
        (vertices_abs_addr 60 48) 0 1 =
      (readVertexRec oneVertexBuf (F32.finite (5368709 / 536870912)) 108).bind
        (fun v => some [v]) from rfl]
    rw [show readVertexRec oneVertexBuf (F32.finite (5368709 / 536870912)) 108 =
      some ⟨mulScale 100 (F32.finite (5368709 / 536870912)),
            mulScale 0 (F32.finite (5368709 / 536870912)),
            mulScale 0 (F32.finite (5368709 / 536870912))⟩ from rfl]
    norm_num [mulScale]
  have hp : parse_map_fileE oneVertexBuf =
      .ok ([⟨F32.finite (134217725 / 134217728), F32.finite 0, F32.finite 0⟩], []) := by
    rw [parse_decomp oneVertexBuf 60 ⟨1, F32.finite (5368709 / 536870912), 48, 56⟩ hh hn]
    show (liftOOB (readVertices oneVertexBuf (F32.finite (5368709 / 536870912))
      (vertices_abs_addr 60 48) 0 1)).bind _ = _
    rw [hv]
    rfl
  refine ⟨_, _, hp, ?_, rfl⟩
  have h := (vertex_records_scaled.1 oneVertexBuf 60
    ⟨1, F32.finite (5368709 / 536870912), 48, 56⟩ _ [] hh hn hp).1
  exact h

theorem pyIndex_none (vs : List Vertex) (i : Nat) (h : vs.get? i = none) :
    pyIndex vs i = .error .indexError := by
  unfold pyIndex
  rw [h]

theorem pyIndex_some (vs : List Vertex) (i : Nat) (v : Vertex) (h : vs.get? i = some v) :
    pyIndex vs i = .ok v := by
  unfold pyIndex
  rw [h]

/-- Claim C1 concerns a code bug: the comprehension
`[vertices[i] for i in tri.vertex_indices]` at source line 180 runs BEFORE
the bounds check at line 183, so a triangle holding an out-of-range vertex
index raises an uncaught `IndexError` instead of being skipped.  The skip
branch is unreachable (`consumeTri` can never return `ok none`), and on the
claim's own example — one vertex, a triangle whose index equals the vertex
count — the consumer aborts with `indexError` instead of rendering the
other, valid triangle. -/
theorem tri_index_error_aborts_consumer :
    (∀ vs : List Vertex, ∀ t : Tri, consumeTri vs t ≠ .ok none) ∧
    buildPolygons [⟨.finite 0, .finite 0, .finite 0⟩]
      [⟨(0, 0, 0), (0, 0, 0), 0⟩, ⟨(1, 1, 1), (0, 0, 0), 0⟩] = .error .indexError ∧
    buildPolygons [⟨.finite 0, .finite 0, .finite 0⟩]
      [⟨(1, 1, 1), (0, 0, 0), 0⟩] = .error .indexError := by
  refine ⟨?_, rfl, rfl⟩
  intro vs t hcontra
  have hdo : consumeTri vs t =
      (pyIndex vs t.vertex_indices.1).bind (fun p0 =>
        (pyIndex vs t.vertex_indices.2.1).bind (fun p1 =>
          (pyIndex vs t.vertex_indices.2.2).bind (fun p2 =>
            if vs.length ≤ t.vertex_indices.1 ∨ vs.length ≤ t.vertex_indices.2.1 ∨
                vs.length ≤ t.vertex_indices.2.2 then .ok none
            else .ok (some (p0, p1, p2))))) := rfl
  rw [hdo] at hcontra
  cases h0 : vs.get? t.vertex_indices.1 with
  | none =>
    rw [pyIndex_none _ _ h0] at hcontra
    exact absurd hcontra (by simp [exc_error_bind])
  | some p0 =>
    rw [pyIndex_some _ _ _ h0] at hcontra
    simp only [exc_ok_bind] at hcontra
    cases h1 : vs.get? t.vertex_indices.2.1 with
    | none =>
      rw [pyIndex_none _ _ h1] at hcontra
      exact absurd hcontra (by simp [exc_error_bind])
    | some p1 =>
      rw [pyIndex_some _ _ _ h1] at hcontra
      simp only [exc_ok_bind] at hcontra
      cases h2 : vs.get? t.vertex_indices.2.2 with
      | none =>
        rw [pyIndex_none _ _ h2] at hcontra
        exact absurd hcontra (by simp [exc_error_bind])
      | some p2 =>
        rw [pyIndex_some _ _ _ h2] at hcontra
        simp only [exc_ok_bind] at hcontra
        have hlt0 : t.vertex_indices.1 < vs.length := (List.get?_eq_some.mp h0).1
        have hlt1 : t.vertex_indices.2.1 < vs.length := (List.get?_eq_some.mp h1).1
        have hlt2 : t.vertex_indices.2.2 < vs.length := (List.get?_eq_some.mp h2).1
        rw [if_neg (by push_neg; exact ⟨hlt0, hlt1, hlt2⟩)] at hcontra
        exact absurd hcontra (by simp)

end FFXMapout
